import Mathlib

/-!
Verification of the decom layered communication library core.

The definitions below are a shallow embedding of the decom sources:

* `Decom.slip` embeds `decom::prot::slip` (prot_slip.h): the RFC 1055
  byte-stuffed framer with its encoder (`send`), decoder state machine
  (`receive`, states `RCV_IDLE`/`RCV_DATA`/`RCV_ESC`) and the
  open/close lifecycle.
* `Decom.iso15765` embeds `decom::prot::iso15765` (prot_iso15765.h): the
  ISO 15765-2 (CAN-TP) segmentation protocol with Single Frame, First
  Frame, Consecutive Frame and Flow Control handling.
* `Decom.com.serial` embeds the `upper_` gate of `decom::com::serial`
  (com_serial.h); the Windows API portion of `open` is abstracted as an
  oracle boolean since it only touches the OS.
* `Decom.msg` is a logical model of the decom message container, whose
  implementation file (msg.h) is not among the provided sources; it is
  modelled from the specification (see its doc comment).

Bytes are modelled as `Nat` (the C++ code manipulates `std::uint8_t`
values; every arithmetic that can leave the byte range in the source is
masked exactly where the source masks or casts).  Messages are modelled
by their logical byte content as `List Nat`; pool exhaustion (which can
make `msg` operations fail) is outside the protocol logic verified here.
The endpoint identifier `eid` is threaded through the source unchanged
and is omitted from the embedding.  Side effects of a protocol operation
(frames to the lower layer, deliveries and indications to the upper
layer, timer commands) are returned as an explicit effect trace.
-/

namespace Decom

/-- The closed set of status codes of `decom::layer` (com.h / prot.h). -/
inductive Status
  | connected
  | disconnected
  | tx_done
  | tx_error
  | tx_timeout
  | rx_error
  | rx_overrun
  | rx_timeout
deriving DecidableEq

/-- The three timers of `decom::prot::iso15765`:
`timer_TX_CF_` (STmin pacing), `timer_TX_FC_` (N_Bs supervision of the
peer's Flow Control) and `timer_RX_CF_` (N_Cr supervision of the peer's
Consecutive Frames). -/
inductive TimerId
  | TX_CF
  | TX_FC
  | RX_CF
deriving DecidableEq

/-- One observable side effect of a protocol operation. -/
inductive Effect
  | sendLower (frame : List Nat)
  | deliverUpper (data : List Nat)
  | indicateUpper (code : Status)
  | timerStart (t : TimerId) (ms : Nat)
  | timerStop (t : TimerId)
deriving DecidableEq

namespace slip

/-- SLIP special character `END` (0xC0), start/end of packet. -/
def END : Nat := 0xC0

/-- SLIP special character `ESC` (0xDB), byte stuffing lead-in. -/
def ESC : Nat := 0xDB

/-- SLIP special character `ESC_END` (0xDC): `ESC ESC_END` means `END`. -/
def ESC_END : Nat := 0xDC

/-- SLIP special character `ESC_ESC` (0xDD): `ESC ESC_ESC` means `ESC`. -/
def ESC_ESC : Nat := 0xDD

/-- Decoder states of `decom::prot::slip` (`rx_state_type`). -/
inductive rx_state_type
  | RCV_IDLE
  | RCV_DATA
  | RCV_ESC
deriving DecidableEq

end slip

/-- State of a `decom::prot::slip` layer: decoder state, open flag, and
the receive / transmit message buffers.  `upper_` models whether the
upward back-reference of the layer is wired (non-null). -/
structure slip where
  rx_state_ : slip.rx_state_type
  is_open_ : Bool
  rx_msg_ : List Nat
  tx_msg_ : List Nat
  upper_ : Bool
deriving DecidableEq

namespace slip

/-- The byte-stuffing loop body of `slip::send`: `END` becomes
`ESC ESC_END`, `ESC` becomes `ESC ESC_ESC`, everything else passes. -/
def stuff : List Nat → List Nat
  | [] => []
  | b :: rest =>
      (if b = END then [ESC, ESC_END]
       else if b = ESC then [ESC, ESC_ESC]
       else [b]) ++ stuff rest

/-- `slip::send`.  Returns the new layer state, the frames forwarded to
the lower layer, the indications raised to the upper layer and the
boolean result.  `lowerOk` is the result the lower layer's `send`
returns when invoked. -/
def send (s : slip) (packet : List Nat) (more : Bool) (lowerOk : Bool) :
    slip × List (List Nat) × List Status × Bool :=
  if !s.is_open_ then
    -- layer is not open, don't send anything
    (s, [], [], false)
  else
    -- send an initial END character on the first fragment of a frame
    let tx0 := if s.tx_msg_ = [] then [END] else s.tx_msg_
    let tx1 := tx0 ++ stuff packet
    if !more then
      -- terminate the packet with END, forward it, clear the buffer
      ({ s with tx_msg_ := [] }, [tx1 ++ [END]], [], lowerOk)
    else
      -- accumulate and signal the upper layer that the fragment is done
      ({ s with tx_msg_ := tx1 }, [], [Status.tx_done], true)

/-- One step of the `slip::receive` decoder state machine: processes one
incoming byte against (state, buffer) and optionally delivers a packet. -/
def receiveByte (st : rx_state_type) (buf : List Nat) (b : Nat) :
    rx_state_type × List Nat × Option (List Nat) :=
  match st with
  | rx_state_type.RCV_IDLE =>
      if b = END then (rx_state_type.RCV_DATA, buf, none)
      else (rx_state_type.RCV_IDLE, buf, none)
  | rx_state_type.RCV_DATA =>
      if b = ESC then (rx_state_type.RCV_ESC, buf, none)
      else if b = END then
        if buf ≠ [] then (rx_state_type.RCV_IDLE, [], some buf)
        else (rx_state_type.RCV_IDLE, buf, none)
      else (rx_state_type.RCV_DATA, buf ++ [b], none)
  | rx_state_type.RCV_ESC =>
      if b = ESC_END then (rx_state_type.RCV_DATA, buf ++ [END], none)
      else if b = ESC_ESC then (rx_state_type.RCV_DATA, buf ++ [ESC], none)
      else (rx_state_type.RCV_IDLE, [], none)

/-- The byte loop of `slip::receive`, collecting delivered packets. -/
def receiveBytes : rx_state_type → List Nat → List Nat →
    rx_state_type × List Nat × List (List Nat)
  | st, buf, [] => (st, buf, [])
  | st, buf, b :: rest =>
      let r := receiveByte st buf b
      let k := receiveBytes r.1 r.2.1 rest
      (k.1, k.2.1, r.2.2.toList ++ k.2.2)

/-- `slip::receive`: ignores everything while the layer is not open,
otherwise runs the decoder over the byte stream; the second component
is the list of packets passed to the upper layer. -/
def receive (s : slip) (data : List Nat) : slip × List (List Nat) :=
  if !s.is_open_ then
    -- layer is not open, ignore reception
    (s, [])
  else
    let r := receiveBytes s.rx_state_ s.rx_msg_ data
    ({ s with rx_state_ := r.1, rx_msg_ := r.2.1 }, r.2.2)

/-- `slip::open`.  `lowerResult` is what the lower layer's `open`
returns when it is invoked; the third component records whether the
lower layer's `open` was called at all. -/
def «open» (s : slip) (lowerResult : Bool) : slip × Bool × Bool :=
  if !s.upper_ then
    -- for security: check that upper protocol/device exists
    (s, false, false)
  else
    ({ s with is_open_ := lowerResult, rx_state_ := rx_state_type.RCV_IDLE },
     lowerResult, true)

/-- `slip::close`: mark the layer closed, clear both message buffers and
reset the decoder state (the lower layer's `close` is then invoked,
which does not touch this layer's state). -/
def close (s : slip) : slip :=
  { s with is_open_ := false, rx_msg_ := [], tx_msg_ := [],
           rx_state_ := rx_state_type.RCV_IDLE }

end slip

/-- A freshly opened slip layer (wired, open, empty buffers), as used by
the round-trip scenarios. -/
def slip0 : slip :=
  { rx_state_ := slip.rx_state_type.RCV_IDLE, is_open_ := true,
    rx_msg_ := [], tx_msg_ := [], upper_ := true }

namespace iso

/-- `NPCI_SINGLE_FRAME` -/
def NPCI_SINGLE_FRAME : Nat := 0x00
/-- `NPCI_FIRST_FRAME` -/
def NPCI_FIRST_FRAME : Nat := 0x10
/-- `NPCI_CONSECUTIVE_FRAME` -/
def NPCI_CONSECUTIVE_FRAME : Nat := 0x20
/-- `NPCI_FLOW_CONTROL` -/
def NPCI_FLOW_CONTROL : Nat := 0x30

/-- `SF_DATALENGTH` (normal addressing) -/
def SF_DATALENGTH : Nat := 7
/-- `FF_DATALENGTH` (normal addressing) -/
def FF_DATALENGTH : Nat := 6
/-- `CF_DATALENGTH` (normal addressing) -/
def CF_DATALENGTH : Nat := 7
/-- `FC_DATALENGTH` -/
def FC_DATALENGTH : Nat := 3

/-- `SF_DATALENGTH_EXT` (extended addressing) -/
def SF_DATALENGTH_EXT : Nat := 6
/-- `FF_DATALENGTH_EXT` (extended addressing) -/
def FF_DATALENGTH_EXT : Nat := 5
/-- `CF_DATALENGTH_EXT` (extended addressing) -/
def CF_DATALENGTH_EXT : Nat := 6

/-- `FRAME_LENGTH`: complete frame length on the wire. -/
def FRAME_LENGTH : Nat := 8

/-- Flow control flow-status `FC_CTS` -/
def FC_CTS : Nat := 0
/-- Flow control flow-status `FC_WAIT` -/
def FC_WAIT : Nat := 1

/-- `N_Bs` supervision time in ms. -/
def N_Bs : Nat := 1000
/-- `N_Cr` supervision time in ms. -/
def N_Cr : Nat := 1000

/-- `CF_MAX_FRAME_SIZE`: the largest frame size the protocol accepts. -/
def CF_MAX_FRAME_SIZE : Nat := 4095
/-- `CF_MAX_BUFFER_SIZE` (equals `CF_MAX_FRAME_SIZE`). -/
def CF_MAX_BUFFER_SIZE : Nat := 4095

/-- `decom::util::make_large<uint8_t,uint16_t>(lo, hi)`: builds a 16-bit
value from a low and a high byte. -/
def make_large (lo hi : Nat) : Nat := (hi <<< 8) ||| lo

/-- `msg::resize(n)`: truncate to `n` bytes or pad with zeros up to `n`. -/
def msgResize (n : Nat) (l : List Nat) : List Nat :=
  l.take n ++ List.replicate (n - l.length) 0

/-- The zero-padding insertion used by iso15765
(`insert(end(), size() < FRAME_LENGTH ? FRAME_LENGTH - size() : 0, 0)`). -/
def zeroPad (l : List Nat) : List Nat :=
  l ++ List.replicate (if l.length < FRAME_LENGTH then FRAME_LENGTH - l.length else 0) 0

end iso

/-- State of a `decom::prot::iso15765` layer: the member variables of the
class.  `upper_` models whether the upward back-reference is wired and
`tx_ev_` the binary latch `tx_ev_` set by the `tx_done` indication. -/
structure iso15765 where
  CF_frame_ : List Nat
  CF_SN_ : Nat
  CF_DL_ : Nat
  CF_size_ : Nat
  CF_MAX_DL_ : Nat
  CF_STmin_ : Nat
  CF_BS_ : Nat
  CF_BScnt_ : Nat
  FC_STmin_ : Nat
  FC_BS_ : Nat
  FC_FS_ : Nat
  use_ext_adr_ : Bool
  ext_source_adr_ : Nat
  ext_target_adr_ : Nat
  use_zero_padding_ : Bool
  upper_ : Bool
  tx_ev_ : Bool
deriving DecidableEq

namespace iso15765

open iso

/-- The iso15765 constructor state for parameters `(STmin, BS, MAX_DL)`,
with the upper layer wired (as a stack builder does on construction). -/
def init (STmin BS MAX_DL : Nat) : iso15765 :=
  { CF_frame_ := [], CF_SN_ := 0, CF_DL_ := 0, CF_size_ := 0,
    CF_MAX_DL_ := MAX_DL, CF_STmin_ := STmin, CF_BS_ := BS, CF_BScnt_ := 0,
    FC_STmin_ := 0, FC_BS_ := 0, FC_FS_ := 0,
    use_ext_adr_ := false, ext_source_adr_ := 0, ext_target_adr_ := 0,
    use_zero_padding_ := false, upper_ := true, tx_ev_ := false }

/-- `iso15765::open`: refuses when no upper layer is wired, otherwise
opens the lower layer (result `lowerResult`) and resets `CF_DL_`.  The
third component records whether the lower layer's `open` was called. -/
def «open» (s : iso15765) (lowerResult : Bool) : iso15765 × Bool × Bool :=
  if !s.upper_ then
    -- for security: check that upper protocol/device exists
    (s, false, false)
  else
    ({ s with CF_DL_ := 0 }, lowerResult, true)

/-- `iso15765::send`: Single Frame for small payloads, otherwise First
Frame plus transfer state setup and the `N_Bs` (`timer_TX_FC_`) timer.
`lowerOk` is the result of the lower layer's `send`. -/
def send (s : iso15765) (data : List Nat) (lowerOk : Bool) :
    iso15765 × List Effect × Bool :=
  if data.length > CF_MAX_FRAME_SIZE then
    -- data size too big
    (s, [], false)
  else if s.CF_DL_ ≠ 0 then
    -- a msg transmission is already in progress
    (s, [], false)
  else if data.length ≤ (if s.use_ext_adr_ then SF_DATALENGTH_EXT else SF_DATALENGTH) then
    -- send SF
    let d1 := (NPCI_SINGLE_FRAME ||| (data.length &&& 0x0F)) :: data
    let d2 := if s.use_ext_adr_ then s.ext_target_adr_ :: d1 else d1
    let d3 := if s.use_zero_padding_ then zeroPad d2 else d2
    (s, [Effect.sendLower d3], lowerOk)
  else
    -- send FF
    let dl := if s.use_ext_adr_ then FF_DATALENGTH_EXT else FF_DATALENGTH
    let sz := data.length
    let ff0 := (NPCI_FIRST_FRAME ||| ((sz >>> 8) &&& 0x0F)) :: (sz % 256) :: data.take dl
    let ff := if s.use_ext_adr_ then s.ext_target_adr_ :: ff0 else ff0
    if lowerOk then
      ({ s with CF_frame_ := data, CF_SN_ := 1, CF_DL_ := dl, CF_size_ := sz,
                CF_BScnt_ := 0 },
       [Effect.sendLower ff, Effect.timerStart TimerId.TX_FC N_Bs], true)
    else
      -- FF could not be sent - abort
      ({ s with CF_frame_ := [], CF_SN_ := 1, CF_DL_ := 0, CF_size_ := sz,
                CF_BScnt_ := 0 },
       [Effect.sendLower ff], false)

/-- `iso15765::send_FC`: emit a Flow Control frame carrying the own
`CF_BS_` and `CF_STmin_` parameters (the lower layer's send result is
discarded at every call site in `receive`). -/
def send_FC (s : iso15765) (FS : Nat) : List Effect :=
  let fc0 := [NPCI_FLOW_CONTROL ||| (FS &&& 0x0F), s.CF_BS_, s.CF_STmin_]
  let fc1 := if s.use_ext_adr_ then s.ext_target_adr_ :: fc0 else fc0
  let fc := if s.use_zero_padding_ then zeroPad fc1 else fc1
  [Effect.sendLower fc]

/-- The body of the `switch` in `iso15765::receive`, run on the frame
after the optional extended-address byte was stripped. -/
def receive_frame (s : iso15765) (data : List Nat) : iso15765 × List Effect :=
  let b0 := data.getD 0 0xCC
  let npci := b0 &&& 0xF0
  if npci = NPCI_SINGLE_FRAME then
    -- single frame received - just check length and pass to upper layer
    let s1 : iso15765 := { s with CF_DL_ := 0 }
    let SF_DL := b0 &&& 0x0F
    if SF_DL > (if s1.use_ext_adr_ then SF_DATALENGTH_EXT else SF_DATALENGTH) ∨
        data.length ≤ SF_DL then
      -- error - frame length wrong, discard frame
      (s1, [Effect.indicateUpper Status.rx_error])
    else
      (s1, [Effect.deliverUpper (msgResize SF_DL data.tail)])
  else if npci = NPCI_FIRST_FRAME then
    -- first frame received
    let dl := make_large (data.getD 1 0xCC) (b0 &&& 0x0F)
    if dl < (if s.use_ext_adr_ then FF_DATALENGTH_EXT else FF_DATALENGTH) + 2 then
      -- error - frame length too small, discard frame
      ({ s with CF_DL_ := 0, CF_frame_ := [] },
       [Effect.indicateUpper Status.rx_error])
    else if dl > s.CF_MAX_DL_ ∨ dl > CF_MAX_BUFFER_SIZE then
      -- error - frame too big, discard frame (FC_SEND_OVERFLOW not defined)
      ({ s with CF_DL_ := 0, CF_frame_ := [] },
       [Effect.indicateUpper Status.rx_error])
    else
      let buf := msgResize (if s.use_ext_adr_ then FF_DATALENGTH_EXT else FF_DATALENGTH)
        data.tail.tail
      let s1 : iso15765 :=
        { s with CF_DL_ := dl, CF_frame_ := buf, CF_SN_ := 1, CF_BScnt_ := 0 }
      (s1, s1.send_FC FC_CTS ++ [Effect.timerStart TimerId.RX_CF N_Cr])
  else if npci = NPCI_CONSECUTIVE_FRAME then
    -- consecutive frame received; the N_Cr timer is stopped first
    if s.CF_DL_ = 0 then
      -- no CF expected
      (s, [Effect.timerStop TimerId.RX_CF, Effect.indicateUpper Status.rx_error])
    else if b0 &&& 0x0F ≠ s.CF_SN_ then
      -- error - wrong sequence number, discard frame and cancel reception
      ({ s with CF_DL_ := 0, CF_frame_ := [] },
       [Effect.timerStop TimerId.RX_CF, Effect.indicateUpper Status.rx_error])
    else
      let s1 : iso15765 := { s with CF_SN_ := (s.CF_SN_ + 1) &&& 0x0F }
      let payload := data.tail
      -- check buffer space
      let ov := ¬ (s1.CF_frame_.length + payload.length ≤ CF_MAX_BUFFER_SIZE)
      let s2 : iso15765 :=
        if ov then s1 else { s1 with CF_frame_ := s1.CF_frame_ ++ payload }
      let ovEff : List Effect :=
        if ov then [Effect.indicateUpper Status.rx_overrun] else []
      if s2.CF_frame_.length ≥ s2.CF_DL_ then
        -- frame complete - send frame to upper layer
        ({ s2 with CF_DL_ := 0, CF_frame_ := [] },
         Effect.timerStop TimerId.RX_CF :: ovEff ++
           [Effect.deliverUpper (msgResize s2.CF_DL_ s2.CF_frame_)])
      else
        let bsFC := s2.CF_BS_ ≠ 0 ∧ s2.CF_BScnt_ + 1 ≥ s2.CF_BS_
        let s3 : iso15765 :=
          if bsFC then { s2 with CF_BScnt_ := 0 }
          else if s2.CF_BS_ ≠ 0 then { s2 with CF_BScnt_ := s2.CF_BScnt_ + 1 }
          else s2
        let fcEff : List Effect := if bsFC then s3.send_FC FC_CTS else []
        (s3, Effect.timerStop TimerId.RX_CF :: ovEff ++ fcEff ++
          [Effect.timerStart TimerId.RX_CF N_Cr])
  else if npci = NPCI_FLOW_CONTROL then
    -- flow control frame received; the N_Bs surveillance timer is
    -- stopped first
    if data.length < FC_DATALENGTH then
      -- FC frame is too short
      (s, [Effect.timerStop TimerId.TX_FC, Effect.indicateUpper Status.rx_error])
    else if b0 &&& 0x0F > 1 then
      -- FS format error
      (s, [Effect.timerStop TimerId.TX_FC, Effect.indicateUpper Status.rx_error])
    else
      -- frame is okay - store values
      let s1 : iso15765 :=
        { s with FC_FS_ := b0 &&& 0x01, FC_BS_ := data.getD 1 0xCC,
                 FC_STmin_ := data.getD 2 0xCC, CF_BScnt_ := 0 }
      if s1.FC_FS_ = 0 then
        -- CTS set - send next consecutive frame after FC_STmin
        (s1, [Effect.timerStop TimerId.TX_FC,
              Effect.timerStart TimerId.TX_CF s1.FC_STmin_])
      else
        (s1, [Effect.timerStop TimerId.TX_FC])
  else
    -- unknown N_PCI type
    (s, [Effect.indicateUpper Status.rx_error])

/-- `iso15765::receive`: under extended addressing a frame whose first
byte differs from `ext_source_adr_` is silently discarded, otherwise the
address byte is stripped and the N_PCI switch is run. -/
def receive (s : iso15765) (data : List Nat) : iso15765 × List Effect :=
  if s.use_ext_adr_ then
    if data.getD 0 0xCC ≠ s.ext_source_adr_ then
      -- source address mismatch, discard frame - this is no error
      (s, [])
    else
      s.receive_frame data.tail
  else
    s.receive_frame data

/-- `iso15765::indication`: a `tx_done` from below sets the `tx_ev_`
latch; every indication is forwarded upward. -/
def indication (s : iso15765) (code : Status) : iso15765 × List Effect :=
  (if code = Status.tx_done then { s with tx_ev_ := true } else s,
   [Effect.indicateUpper code])

/-- `iso15765::send_CF`: emit one Consecutive Frame.  The model's
`tx_ev_` field stands for the `tx_ev_.wait_for(N_As)` outcome: when the
latch is not set the wait times out and the transfer is aborted with a
`tx_timeout` indication.  `lowerOk` is the lower layer's `send` result;
on failure the code retries after `FC_STmin_` (strategy 1 in source). -/
def send_CF (s : iso15765) (lowerOk : Bool) : iso15765 × List Effect × Bool :=
  let L := if s.use_ext_adr_ then CF_DATALENGTH_EXT else CF_DATALENGTH
  let cf0 := (NPCI_CONSECUTIVE_FRAME ||| (s.CF_SN_ &&& 0x0F)) ::
    (if s.CF_DL_ + L < s.CF_frame_.length
     then (s.CF_frame_.drop s.CF_DL_).take L
     else s.CF_frame_.drop s.CF_DL_)
  let cf1 := if s.use_ext_adr_ then s.ext_target_adr_ :: cf0 else cf0
  let cf := if s.use_zero_padding_ then zeroPad cf1 else cf1
  if !s.tx_ev_ then
    -- timeout waiting for tx_done - abort frame transmission
    ({ s with CF_DL_ := 0, CF_frame_ := [] },
     [Effect.indicateUpper Status.tx_timeout], false)
  else
    let s0 : iso15765 := { s with tx_ev_ := false }
    if lowerOk then
      let s1 : iso15765 :=
        { s0 with CF_SN_ := (s0.CF_SN_ + 1) % 256, CF_DL_ := s0.CF_DL_ + L }
      if s1.CF_DL_ ≥ s1.CF_size_ then
        -- frame completely sent
        ({ s1 with CF_DL_ := 0, CF_frame_ := [] }, [Effect.sendLower cf], true)
      else if s1.FC_BS_ ≠ 0 then
        -- CF_BScnt_++ >= FC_BS_: compare the old counter, then increment
        let s2 : iso15765 := { s1 with CF_BScnt_ := (s1.CF_BScnt_ + 1) % 256 }
        if s1.CF_BScnt_ ≥ s1.FC_BS_ then
          -- block completely sent - wait for FC from receiver
          (s2, [Effect.sendLower cf, Effect.timerStart TimerId.TX_FC N_Bs], true)
        else
          (s2, [Effect.sendLower cf, Effect.timerStart TimerId.TX_CF s2.FC_STmin_],
           true)
      else
        (s1, [Effect.sendLower cf, Effect.timerStart TimerId.TX_CF s1.FC_STmin_],
         true)
    else
      -- transmission error on lower layer - retrigger the STmin timer
      (s0, [Effect.sendLower cf, Effect.timerStart TimerId.TX_CF s0.FC_STmin_],
       false)

/-- `iso15765::send_CF_abort`: clear the per-transfer state and raise
`rx_timeout` upward. -/
def send_CF_abort (s : iso15765) : iso15765 × List Effect :=
  ({ s with CF_DL_ := 0, CF_frame_ := [] },
   [Effect.indicateUpper Status.rx_timeout])

/-- `iso15765::timer_func_TX_FC`: expiry of the `N_Bs` wait for a Flow
Control frame aborts via `send_CF_abort`. -/
def timer_func_TX_FC (s : iso15765) : iso15765 × List Effect :=
  s.send_CF_abort

end iso15765

namespace com

/-- State of a `decom::com::serial` communicator, reduced to the fields
the verified claims touch: the upward wiring (`upper_`), whether the COM
port handle is valid (`com_handle_ != INVALID_HANDLE_VALUE`) and the
transmit-busy flag. -/
structure serial where
  upper_ : Bool
  com_open_ : Bool
  tx_busy_ : Bool
deriving DecidableEq

/-- `serial::open`: refuses when no upper layer is wired or the address
is empty; the Windows API part (CreateFileA, SetCommState,
SetCommTimeouts, worker-thread creation) is abstracted as the oracle
`osOk` - when any of those steps fails the code calls `close()` and
returns false, leaving the handle invalid. -/
def serial.«open» (s : serial) (addressNonempty : Bool) (osOk : Bool) :
    serial × Bool :=
  if !s.upper_ then
    -- check that upper protocol/device exists
    (s, false)
  else if !addressNonempty then
    -- invalid address
    (s, false)
  else if osOk then
    ({ s with com_open_ := true, tx_busy_ := false }, true)
  else
    ({ s with com_open_ := false }, false)

end com

/-- Modelled from the spec: the decom `msg` container implementation
(msg.h) is not among the provided sources - only its test suite
(test_msg.h) is.  Following spec sections 3 and 4.2, a message is
modelled by its logical byte content together with the shared/read-only
flag that `ref_copy` sets; the page list, offsets and reference counts
sit below the logical level used by the claims, and pool exhaustion is
not modelled. -/
structure msg where
  data : List Nat
  shared : Bool
deriving DecidableEq

namespace msg

/-- Modelled from the spec: `msg::size`, the count of logical bytes. -/
def size (m : msg) : Nat := m.data.length

/-- Modelled from the spec: `msg::at` / `msg::operator[]` - bounds
checked random access returning the sentinel byte 0xCC on an
out-of-range index ("`at` bounds-checked and returns a sentinel `0xCC`
on overflow"). -/
def «at» (m : msg) (i : Nat) : Nat := m.data.getD i 0xCC

/-- Modelled from the spec: `msg::push_back` - appends one byte; a
message in read-only state (after any `ref_copy`) rejects mutations by
returning false. -/
def push_back (m : msg) (v : Nat) : msg × Bool :=
  if m.shared then (m, false) else ({ m with data := m.data ++ [v] }, true)

/-- Modelled from the spec: `msg::push_front` - prepends one byte; a
message in read-only state rejects mutations by returning false. -/
def push_front (m : msg) (v : Nat) : msg × Bool :=
  if m.shared then (m, false) else ({ m with data := v :: m.data }, true)

/-- Modelled from the spec: `msg::clear` - "Release all pages; restore
to empty, writable state". -/
def clear (_ : msg) : msg := { data := [], shared := false }

/-- Modelled from the spec: `b.ref_copy(a)` - `b` shares `a`'s pages
(same logical content) and both sides become read-only.  The result is
the pair (new `a`, new `b`). -/
def ref_copy (a : msg) : msg × msg :=
  ({ data := a.data, shared := true }, { data := a.data, shared := true })

end msg

/-- A sender mid-transfer: the state after the First Frame of the 8-byte
payload `[1..8]` was emitted (waiting for the peer's Flow Control). -/
def sWAIT_FC : iso15765 :=
  { iso15765.init 50 3 4095 with
    CF_frame_ := [1, 2, 3, 4, 5, 6, 7, 8], CF_SN_ := 1, CF_DL_ := 6,
    CF_size_ := 8 }

/-! ## Theorems -/

/-- Masking a byte value that already fits in the low nibble with 0x0F
is the identity. -/
theorem land_fifteen_eq_of_le (n : Nat) (h : n ≤ 15) : n &&& 15 = n := by
  interval_cases n <;> rfl

/-- The SLIP decoder, in state `RCV_DATA`, consumes a byte-stuffed
stream by exactly un-stuffing it into the buffer, delivering nothing. -/
theorem slip_receiveBytes_stuff (p : List Nat) (buf rest : List Nat) :
    slip.receiveBytes slip.rx_state_type.RCV_DATA buf (slip.stuff p ++ rest) =
      slip.receiveBytes slip.rx_state_type.RCV_DATA (buf ++ p) rest := by
  induction p generalizing buf with
  | nil => simp [slip.stuff]
  | cons b q ih =>
    by_cases hEnd : b = slip.END
    · subst hEnd
      simp only [slip.stuff, List.cons_append, List.nil_append, List.append_assoc,
        slip.receiveBytes, slip.receiveByte, slip.END, slip.ESC, slip.ESC_END,
        slip.ESC_ESC]
      norm_num
      rw [ih]
      simp
    · by_cases hEsc : b = slip.ESC
      · subst hEsc
        simp only [slip.stuff, List.cons_append, List.nil_append, List.append_assoc,
          slip.receiveBytes, slip.receiveByte, slip.END, slip.ESC, slip.ESC_END,
          slip.ESC_ESC]
        norm_num
        rw [ih]
        simp
      · simp only [slip.stuff, if_neg hEnd, if_neg hEsc, List.cons_append,
          List.nil_append, slip.receiveBytes, slip.receiveByte, if_neg hEsc,
          if_neg hEnd]
        rw [ih]
        simp

/-- C1 (counterexample): for the empty payload the SLIP encoder emits
the bare delimiter pair `[END, END]`, and the decoder delivers nothing
at all for it (empty frames are discarded), so `decode (encode p)` does
not deliver `p` upward when `p = []`. -/
theorem slip_roundtrip_empty_counterexample :
    (slip0.send [] false true).2.1 = [[0xC0, 0xC0]] ∧
    (slip0.receive [0xC0, 0xC0]).2 = [] ∧
    (slip0.receive [0xC0, 0xC0]).2 ≠ [[]] := by decide

/-- C1 (amended): for every nonempty byte sequence `p`, the SLIP
encoder's output for `p` (sent with `more = false` on an open slip
layer with an empty transmit buffer) is the single wire frame
`END :: stuff p ++ [END]`, and feeding that frame back into the SLIP
decoder delivers exactly `p` upward; in particular the payload
`[0xC0, 0xDB, 0x00]` produces the wire bytes
`[0xC0, 0xDB, 0xDC, 0xDB, 0xDD, 0x00, 0xC0]`. -/
theorem slip_roundtrip (p : List Nat) (hp : p ≠ []) :
    slip0.send p false true =
      (slip0, [slip.END :: (slip.stuff p ++ [slip.END])], [], true) ∧
    (slip0.receive (slip.END :: (slip.stuff p ++ [slip.END]))).2 = [p] ∧
    (slip0.send [0xC0, 0xDB, 0x00] false true).2.1 =
      [[0xC0, 0xDB, 0xDC, 0xDB, 0xDD, 0x00, 0xC0]] := by
    refine ⟨by simp [slip.send, slip0], ?_, by decide⟩
    have h0 : slip.receiveBytes slip.rx_state_type.RCV_IDLE []
        (slip.END :: (slip.stuff p ++ [slip.END])) =
        slip.receiveBytes slip.rx_state_type.RCV_DATA []
          (slip.stuff p ++ [slip.END]) := by
      simp [slip.receiveBytes, slip.receiveByte]
    have h1 := slip_receiveBytes_stuff p [] [slip.END]
    simp only [List.nil_append] at h1
    have h2 : slip.receiveBytes slip.rx_state_type.RCV_DATA p [slip.END] =
        (slip.rx_state_type.RCV_IDLE, [], [p]) := by
      simp [slip.receiveBytes, slip.receiveByte, slip.END, slip.ESC, hp]
    simp [slip.receive, slip0, h0, h1, h2]

/-- C1 (witness for the amended round-trip at `p = [0xC0, 0xDB, 0x00]`). -/
theorem slip_roundtrip_witness :
    slip0.send [0xC0, 0xDB, 0x00] false true =
      (slip0, [slip.END :: (slip.stuff [0xC0, 0xDB, 0x00] ++ [slip.END])], [], true) ∧
    (slip0.receive (slip.END :: (slip.stuff [0xC0, 0xDB, 0x00] ++ [slip.END]))).2 =
      [[0xC0, 0xDB, 0x00]] ∧
    (slip0.send [0xC0, 0xDB, 0x00] false true).2.1 =
      [[0xC0, 0xDB, 0xDC, 0xDB, 0xDD, 0x00, 0xC0]] :=
  slip_roundtrip [0xC0, 0xDB, 0x00] (by decide)

/-- C10: while the slip layer is not open, `send` returns false without
emitting anything to the lower layer (and without touching the layer
state), and `receive` discards every incoming byte without changing the
decoder state or delivering anything upward; `close` (on any state)
clears both the receive and transmit buffers, resets the decoder state
to `RCV_IDLE` and marks the layer closed, so a partially received frame
is dropped. -/
theorem slip_closed_state (s t : slip) (p data : List Nat) (m lo : Bool)
    (h : s.is_open_ = false) :
    s.send p m lo = (s, [], [], false) ∧
    s.receive data = (s, []) ∧
    t.close = { t with is_open_ := false, rx_msg_ := [], tx_msg_ := [],
                       rx_state_ := slip.rx_state_type.RCV_IDLE } := by
  refine ⟨?_, ?_, rfl⟩
  · simp [slip.send, h]
  · simp [slip.receive, h]

/-- C10 (witness): the closed-state behaviour at a concrete closed slip
layer holding a partially received frame. -/
theorem slip_closed_state_witness :
    (let s : slip := { rx_state_ := slip.rx_state_type.RCV_DATA,
                       is_open_ := false, rx_msg_ := [1, 2], tx_msg_ := [3],
                       upper_ := true }
     s.send [5] false true = (s, [], [], false) ∧
     s.receive [0xC0, 7, 0xC0] = (s, []) ∧
     s.close = { s with is_open_ := false, rx_msg_ := [], tx_msg_ := [],
                        rx_state_ := slip.rx_state_type.RCV_IDLE }) :=
  slip_closed_state _ _ [5] [0xC0, 7, 0xC0] false true rfl

/-- C9: a layer whose upward back-reference is not wired refuses to
open: `open` returns false, the lower layer's `open` is not invoked
(third component false for the two protocols) and the layer state is
unchanged; this holds for the iso15765 protocol, the slip protocol and
the serial communicator (whose `open` returns false before touching the
COM port). -/
theorem open_requires_upper (si : iso15765) (sl : slip) (sc : com.serial)
    (lr1 lr2 a o : Bool)
    (h1 : si.upper_ = false) (h2 : sl.upper_ = false)
    (h3 : sc.upper_ = false) :
    si.«open» lr1 = (si, false, false) ∧
    sl.«open» lr2 = (sl, false, false) ∧
    sc.«open» a o = (sc, false) := by
  refine ⟨?_, ?_, ?_⟩
  · simp [iso15765.«open», h1]
  · simp [slip.«open», h2]
  · simp [com.serial.«open», h3]

/-- C9 (witness): unwired layers at concrete states refuse to open. -/
theorem open_requires_upper_witness :
    ({ iso15765.init 50 3 4095 with upper_ := false }.«open» true =
      ({ iso15765.init 50 3 4095 with upper_ := false }, false, false)) ∧
    ({ slip0 with upper_ := false }.«open» true =
      ({ slip0 with upper_ := false }, false, false)) ∧
    (({ upper_ := false, com_open_ := false, tx_busy_ := false } :
        com.serial).«open» true true =
      (({ upper_ := false, com_open_ := false, tx_busy_ := false } :
        com.serial), false)) := by
  have h := open_requires_upper { iso15765.init 50 3 4095 with upper_ := false }
    { slip0 with upper_ := false }
    { upper_ := false, com_open_ := false, tx_busy_ := false }
    true true true true rfl rfl rfl
  exact h

/-- C7: after `b.ref_copy(a)` (modelled by `a.ref_copy = (a', b)`), both
messages are read-only: `push_back` and `push_front` on either return
false and leave both sizes unchanged; reading any index from `a'` and
`b` returns identical bytes; and `clear()` on `b` yields an empty
writable message while the logical content of `a'` is still that of
`a`. -/
theorem ref_copy_read_only (a : msg) (v i : Nat) :
    ((a.ref_copy.1.push_back v).2 = false ∧
     (a.ref_copy.1.push_front v).2 = false ∧
     (a.ref_copy.2.push_back v).2 = false ∧
     (a.ref_copy.2.push_front v).2 = false) ∧
    ((a.ref_copy.1.push_back v).1.size = a.ref_copy.1.size ∧
     (a.ref_copy.1.push_front v).1.size = a.ref_copy.1.size ∧
     (a.ref_copy.2.push_back v).1.size = a.ref_copy.2.size ∧
     (a.ref_copy.2.push_front v).1.size = a.ref_copy.2.size) ∧
    a.ref_copy.1.«at» i = a.ref_copy.2.«at» i ∧
    (a.ref_copy.2.clear = { data := [], shared := false } ∧
     a.ref_copy.1.data = a.data ∧ a.ref_copy.1.«at» i = a.«at» i) := by
  simp [msg.ref_copy, msg.push_back, msg.push_front, msg.size, msg.clear,
    msg.«at»]

/-- C8: the bounds-checked element access `at(i)` returns the sentinel
byte 0xCC for every index at or beyond the message size, and the stored
byte for every index below the size. -/
theorem at_sentinel (m : msg) (i : Nat) :
    (m.size ≤ i → m.«at» i = 0xCC) ∧
    ∀ h : i < m.size, m.«at» i = m.data.get ⟨i, h⟩ := by
  constructor
  · intro h
    exact List.getD_eq_default _ _ h
  · intro h
    exact List.getD_eq_get _ _ h

/-- C8 (witness): on the four-byte message of the test suite, index 4
reads the 0xCC sentinel and index 1 reads the stored byte. -/
theorem at_sentinel_witness :
    ((({ data := [1, 4, 9, 16], shared := false } : msg).size ≤ 4 →
      ({ data := [1, 4, 9, 16], shared := false } : msg).«at» 4 = 0xCC) ∧
     ∀ h : (4 : Nat) < ({ data := [1, 4, 9, 16], shared := false } : msg).size,
       ({ data := [1, 4, 9, 16], shared := false } : msg).«at» 4 =
         ({ data := [1, 4, 9, 16], shared := false } : msg).data.get ⟨4, h⟩) ∧
    ({ data := [1, 4, 9, 16], shared := false } : msg).«at» 1 = 4 :=
  ⟨at_sentinel { data := [1, 4, 9, 16], shared := false } 4,
   by
    have h := (at_sentinel { data := [1, 4, 9, 16], shared := false } 1).2
      (by decide)
    simpa using h⟩

/-- C2: with normal addressing and no zero padding, `iso15765::send` on
the 8-byte payload `[1..8]` emits the First Frame
`[0x10, 0x08, 0x01, 0x02, 0x03, 0x04, 0x05, 0x06]` to the lower layer
(and starts the `N_Bs` supervision); after `tx_done` was indicated and
the peer's Flow Control frame `[0x30, 0x00, 0x00]` is received, the next
frame emitted is the Consecutive Frame `[0x21, 0x07, 0x08]`. -/
theorem ff_then_cf_scenario :
    (let s0 := iso15765.init 50 3 4095
     let r1 := s0.send [1, 2, 3, 4, 5, 6, 7, 8] true
     r1.2.1 = [Effect.sendLower [0x10, 0x08, 0x01, 0x02, 0x03, 0x04, 0x05, 0x06],
               Effect.timerStart TimerId.TX_FC 1000] ∧
     r1.2.2 = true ∧
     (let s2 := (r1.1.indication Status.tx_done).1
      let r3 := s2.receive [0x30, 0x00, 0x00]
      r3.2 = [Effect.timerStop TimerId.TX_FC,
              Effect.timerStart TimerId.TX_CF 0] ∧
      (r3.1.send_CF true).2.1 = [Effect.sendLower [0x21, 0x07, 0x08]] ∧
      (r3.1.send_CF true).2.2 = true ∧
      (r3.1.send_CF true).1.CF_DL_ = 0)) := by decide

/-- C6: when the iso15765 receiver, mid-reassembly (`CF_DL_ ≠ 0`),
receives a Consecutive Frame whose sequence-number nibble differs from
the next expected `CF_SN_`, it discards the frame, clears the reassembly
state (`CF_DL_ = 0`, buffer cleared) and raises an `rx_error`
indication to the upper layer (the `N_Cr` timer having been stopped). -/
theorem wrong_sn_aborts (s : iso15765) (b : Nat) (rest : List Nat)
    (hext : s.use_ext_adr_ = false)
    (hnpci : b &&& 0xF0 = 0x20)
    (hdl : s.CF_DL_ ≠ 0)
    (hsn : b &&& 0x0F ≠ s.CF_SN_) :
    s.receive (b :: rest) =
      ({ s with CF_DL_ := 0, CF_frame_ := [] },
       [Effect.timerStop TimerId.RX_CF, Effect.indicateUpper Status.rx_error]) := by
  simp [iso15765.receive, iso15765.receive_frame, hext, hnpci, hdl, hsn,
    iso.NPCI_SINGLE_FRAME, iso.NPCI_FIRST_FRAME, iso.NPCI_CONSECUTIVE_FRAME,
    iso.NPCI_FLOW_CONTROL]

/-- C6 (witness): a CF with SN = 2 while SN = 1 is expected aborts the
reassembly in progress. -/
theorem wrong_sn_aborts_witness :
    sWAIT_FC.receive (0x22 :: [0xAA, 0xBB]) =
      ({ sWAIT_FC with CF_DL_ := 0, CF_frame_ := [] },
       [Effect.timerStop TimerId.RX_CF, Effect.indicateUpper Status.rx_error]) :=
  wrong_sn_aborts sWAIT_FC 0x22 [0xAA, 0xBB] rfl (by decide) (by decide)
    (by decide)

/-- C4 (counterexample): on a Flow Control frame with flow status WAIT
(`[0x31, 0x00, 0x00]`) the sender only stops the `N_Bs` timer
(`timer_TX_FC_`) and stores the fields - it does not restart the `N_Bs`
timer, contradicting the claim that `FC_FS == WAIT` restarts `N_Bs`. -/
theorem fc_wait_no_restart_counterexample :
    (sWAIT_FC.receive [0x31, 0x00, 0x00]).2 = [Effect.timerStop TimerId.TX_FC] ∧
    Effect.timerStart TimerId.TX_FC iso.N_Bs ∉
      (sWAIT_FC.receive [0x31, 0x00, 0x00]).2 := by decide

/-- C4 (amended): when the sender receives a well-formed Flow Control
frame `[0x30 ||| fs, bs, st]` (flow-status nibble at most 1), it stops
the `N_Bs` timer (`timer_TX_FC_`) and stores the peer's `FC_FS`,
`FC_BS` and `FC_STmin` fields (resetting the block counter); if the
flow status is CTS (0) it schedules the next Consecutive Frame
transmission after `FC_STmin` milliseconds, and if the flow status is
WAIT (1) it performs no further action - in particular it does not
restart the `N_Bs` timer, leaving it stopped until another FC arrives. -/
theorem fc_handling (s : iso15765) (fs bs st : Nat)
    (hext : s.use_ext_adr_ = false) (hfs : fs ≤ 1) :
    s.receive [0x30 ||| fs, bs, st] =
      ({ s with FC_FS_ := fs, FC_BS_ := bs, FC_STmin_ := st, CF_BScnt_ := 0 },
       if fs = 0 then
         [Effect.timerStop TimerId.TX_FC, Effect.timerStart TimerId.TX_CF st]
       else [Effect.timerStop TimerId.TX_FC]) := by
  interval_cases fs
  · simp [iso15765.receive, iso15765.receive_frame, hext,
      iso.NPCI_SINGLE_FRAME, iso.NPCI_FIRST_FRAME, iso.NPCI_CONSECUTIVE_FRAME,
      iso.NPCI_FLOW_CONTROL, iso.FC_DATALENGTH,
      (by decide : (48 &&& 240 : Nat) = 48),
      (by decide : (48 &&& 15 : Nat) = 0),
      (by decide : (48 &&& 1 : Nat) = 0)]
  · simp [iso15765.receive, iso15765.receive_frame, hext,
      iso.NPCI_SINGLE_FRAME, iso.NPCI_FIRST_FRAME, iso.NPCI_CONSECUTIVE_FRAME,
      iso.NPCI_FLOW_CONTROL, iso.FC_DATALENGTH,
      (by decide : (48 ||| 1 : Nat) = 49),
      (by decide : (49 &&& 240 : Nat) = 48),
      (by decide : (49 &&& 15 : Nat) = 1),
      (by decide : (49 &&& 1 : Nat) = 1)]

/-- C4 (witness for the amended claim, at flow status WAIT). -/
theorem fc_handling_witness :
    sWAIT_FC.receive [0x30 ||| 1, 0x00, 0x00] =
      ({ sWAIT_FC with FC_FS_ := 1, FC_BS_ := 0, FC_STmin_ := 0,
                       CF_BScnt_ := 0 },
       if (1 : Nat) = 0 then
         [Effect.timerStop TimerId.TX_FC, Effect.timerStart TimerId.TX_CF 0]
       else [Effect.timerStop TimerId.TX_FC]) :=
  fc_handling sWAIT_FC 1 0 0 rfl (by decide)

/-- C5 (counterexample): a malformed Flow Control frame (flow-status
nibble 2) does not abort the transfer: the per-transfer state
(`CF_DL_`, `CF_frame_`) is left unchanged and the indication raised is
`rx_error`, not `rx_timeout`, contradicting the claim that any
malformed FC clears the state and raises `rx_timeout`. -/
theorem malformed_fc_counterexample :
    (sWAIT_FC.receive [0x32, 0x00, 0x00]).1 = sWAIT_FC ∧
    (sWAIT_FC.receive [0x32, 0x00, 0x00]).1.CF_DL_ = 6 ∧
    (sWAIT_FC.receive [0x32, 0x00, 0x00]).2 =
      [Effect.timerStop TimerId.TX_FC, Effect.indicateUpper Status.rx_error] ∧
    Effect.indicateUpper Status.rx_timeout ∉
      (sWAIT_FC.receive [0x32, 0x00, 0x00]).2 := by decide

/-- C5 (amended): expiry of the `N_Bs` timer aborts the in-progress
transfer - the per-transfer state (`CF_DL_`, `CF_frame_`) is cleared
and an `rx_timeout` indication is raised to the upper layer; a
malformed Flow Control frame (too short, or flow-status nibble greater
than 1) instead stops the `N_Bs` timer and raises an `rx_error`
indication, leaving the per-transfer state unchanged. -/
theorem nbs_expiry_and_malformed_fc (s : iso15765) (data : List Nat)
    (hext : s.use_ext_adr_ = false)
    (hnpci : data.getD 0 0xCC &&& 0xF0 = 0x30)
    (hmal : data.length < 3 ∨ data.getD 0 0xCC &&& 0x0F > 1) :
    s.timer_func_TX_FC =
      ({ s with CF_DL_ := 0, CF_frame_ := [] },
       [Effect.indicateUpper Status.rx_timeout]) ∧
    s.receive data =
      (s, [Effect.timerStop TimerId.TX_FC,
           Effect.indicateUpper Status.rx_error]) := by
  refine ⟨rfl, ?_⟩
  simp only [List.getD_eq_getElem?_getD] at hnpci hmal
  rcases hmal with hlen | hfs
  · simp [iso15765.receive, iso15765.receive_frame, hext, hnpci, hlen,
      iso.NPCI_SINGLE_FRAME, iso.NPCI_FIRST_FRAME, iso.NPCI_CONSECUTIVE_FRAME,
      iso.NPCI_FLOW_CONTROL, iso.FC_DATALENGTH]
  · by_cases hlen : data.length < 3
    · simp [iso15765.receive, iso15765.receive_frame, hext, hnpci, hlen,
        iso.NPCI_SINGLE_FRAME, iso.NPCI_FIRST_FRAME,
        iso.NPCI_CONSECUTIVE_FRAME, iso.NPCI_FLOW_CONTROL, iso.FC_DATALENGTH]
    · simp [iso15765.receive, iso15765.receive_frame, hext, hnpci, hlen, hfs,
        iso.NPCI_SINGLE_FRAME, iso.NPCI_FIRST_FRAME,
        iso.NPCI_CONSECUTIVE_FRAME, iso.NPCI_FLOW_CONTROL, iso.FC_DATALENGTH]

/-- C5 (witness for the amended claim, at the too-short FC frame
`[0x30]`). -/
theorem nbs_expiry_and_malformed_fc_witness :
    sWAIT_FC.timer_func_TX_FC =
      ({ sWAIT_FC with CF_DL_ := 0, CF_frame_ := [] },
       [Effect.indicateUpper Status.rx_timeout]) ∧
    sWAIT_FC.receive [0x30] =
      (sWAIT_FC, [Effect.timerStop TimerId.TX_FC,
                  Effect.indicateUpper Status.rx_error]) :=
  nbs_expiry_and_malformed_fc sWAIT_FC [0x30] rfl (by decide)
    (Or.inl (by decide))

/-- C3: with normal addressing (and no zero padding), every payload `p`
with `0 < |p| ≤ 7` is sent by `iso15765::send` as exactly one Single
Frame whose first byte is `0x00 ||| |p|` followed by the payload bytes
(concretely, `p = [1,5,9]` yields the wire frame
`[0x03, 0x01, 0x05, 0x09]`); for `|p| = 8` the sender instead emits a
First Frame (`[0x10, 0x08]` plus the first six bytes) and - after the
peer's FC CTS and the `tx_done` indication - a Consecutive Frame
carrying the remaining bytes, completing the transfer. -/
theorem sf_ff_boundary (s : iso15765) (p : List Nat)
    (hext : s.use_ext_adr_ = false) (hpad : s.use_zero_padding_ = false)
    (hidle : s.CF_DL_ = 0) :
    (0 < p.length → p.length ≤ 7 →
      s.send p true = (s, [Effect.sendLower ((0x00 ||| p.length) :: p)], true)) ∧
    ((iso15765.init 50 3 4095).send [1, 5, 9] true).2.1 =
      [Effect.sendLower [0x03, 0x01, 0x05, 0x09]] ∧
    (p.length = 8 →
      (s.send p true).2 =
        ([Effect.sendLower (0x10 :: 0x08 :: p.take 6),
          Effect.timerStart TimerId.TX_FC iso.N_Bs], true) ∧
      ((((s.send p true).1.indication Status.tx_done).1.receive
          [0x30, 0x00, 0x00]).1.send_CF true).2 =
        ([Effect.sendLower (0x21 :: p.drop 6)], true) ∧
      ((((s.send p true).1.indication Status.tx_done).1.receive
          [0x30, 0x00, 0x00]).1.send_CF true).1.CF_DL_ = 0) := by
  refine ⟨?_, by decide, ?_⟩
  · intro h0 h7
    have hm : p.length &&& 15 = p.length := land_fifteen_eq_of_le _ (by omega)
    simp [iso15765.send, hext, hpad, hidle, iso.CF_MAX_FRAME_SIZE,
      iso.SF_DATALENGTH, iso.NPCI_SINGLE_FRAME, hm, h7,
      show ¬ (4095 < p.length) by omega]
  · intro h8
    have step1 : s.send p true =
        ({ s with CF_frame_ := p, CF_SN_ := 1, CF_DL_ := 6, CF_size_ := 8,
                  CF_BScnt_ := 0 },
         [Effect.sendLower (0x10 :: 0x08 :: p.take 6),
          Effect.timerStart TimerId.TX_FC iso.N_Bs], true) := by
      simp [iso15765.send, hext, hpad, hidle, h8, iso.CF_MAX_FRAME_SIZE,
        iso.SF_DATALENGTH, iso.FF_DATALENGTH, iso.NPCI_FIRST_FRAME,
        (by decide : ((8 >>> 8) &&& 15 : Nat) = 0),
        (by decide : (8 % 256 : Nat) = 8)]
    rw [step1]
    simp only []
    refine ⟨by simp, ?_⟩
    simp [iso15765.indication, iso15765.receive, iso15765.receive_frame,
      iso15765.send_CF, hext, hpad, h8,
      iso.NPCI_SINGLE_FRAME, iso.NPCI_FIRST_FRAME, iso.NPCI_CONSECUTIVE_FRAME,
      iso.NPCI_FLOW_CONTROL, iso.FC_DATALENGTH, iso.CF_DATALENGTH,
      (by decide : (48 &&& 240 : Nat) = 48),
      (by decide : (48 &&& 15 : Nat) = 0),
      (by decide : (48 &&& 1 : Nat) = 0),
      (by decide : (1 &&& 15 : Nat) = 1),
      (by decide : (32 ||| 1 : Nat) = 33),
      (by decide : (2 % 256 : Nat) = 2)]

/-- C3 (witness): the Single Frame case at `p = [1, 5, 9]` and the
First Frame / Consecutive Frame case at `p = [1, 2, 3, 4, 5, 6, 7, 8]`,
both from the constructor state with `STmin = 50`, `BS = 3`,
`MAX_DL = 4095`. -/
theorem sf_ff_boundary_witness :
    (iso15765.init 50 3 4095).send [1, 5, 9] true =
      (iso15765.init 50 3 4095,
       [Effect.sendLower ((0x00 ||| (3 : Nat)) :: [1, 5, 9])], true) ∧
    ((iso15765.init 50 3 4095).send [1, 2, 3, 4, 5, 6, 7, 8] true).2 =
      ([Effect.sendLower
          (0x10 :: 0x08 :: List.take 6 [1, 2, 3, 4, 5, 6, 7, 8]),
        Effect.timerStart TimerId.TX_FC iso.N_Bs], true) :=
  ⟨(sf_ff_boundary (iso15765.init 50 3 4095) [1, 5, 9] rfl rfl rfl).1
      (by decide) (by decide),
   ((sf_ff_boundary (iso15765.init 50 3 4095) [1, 2, 3, 4, 5, 6, 7, 8]
      rfl rfl rfl).2.2 (by decide)).1⟩

end Decom
